import Mathlib

/-!
Verification of the SpiderStamp evidence-extraction and scoring engine
(src/spider_report.py). The Python source is shallowly embedded below:
pure helpers become Lean functions on strings (modelled as lists of
characters so that everything evaluates inside the kernel), network
calls become explicit oracle parameters (an `Option String` fetch result,
a candidate-name lookup function), and the providers and aggregator are
translated branch by branch.
-/

namespace SpiderStamp

/-! ## String primitives

Python string operations used by the source, re-modelled over `List Char`
so that matching, searching and slicing are executable kernel functions.
-/

/-- Python `str.lower()` restricted to the ASCII vocabulary the source uses. -/
def lowerStr (s : String) : String :=
  String.mk (s.data.map Char.toLower)

/-- `needle` is a prefix of `hay` (character lists). -/
def isPrefixOfCL : List Char → List Char → Bool
  | [], _ => true
  | _ :: _, [] => false
  | a :: as, b :: bs => a == b && isPrefixOfCL as bs

/-- Python substring containment `needle in hay` on character lists. -/
def containsSub (needle : List Char) : List Char → Bool
  | [] => isPrefixOfCL needle []
  | c :: t => isPrefixOfCL needle (c :: t) || containsSub needle t

/-- Python `needle in hay` on strings. -/
def occurs (needle hay : String) : Bool :=
  containsSub needle.data hay.data

/-- Python `hay.find(needle)`: index of the first occurrence, `none` for -1. -/
def findIdx (needle : List Char) : List Char → Option Nat
  | [] => if isPrefixOfCL needle [] then some 0 else none
  | c :: t =>
    if isPrefixOfCL needle (c :: t) then some 0
    else (findIdx needle t).map (fun i => i + 1)

/-- Python `str.strip()`: drop leading and trailing whitespace. -/
def stripChars (l : List Char) : List Char :=
  ((l.dropWhile Char.isWhitespace).reverse.dropWhile Char.isWhitespace).reverse

/-- Python `str.strip()` on strings. -/
def stripStr (s : String) : String :=
  String.mk (stripChars s.data)

/-- Lexicographic strict order on character lists (Python string `<`). -/
def lexLtCh : List Char → List Char → Bool
  | [], [] => false
  | [], _ :: _ => true
  | _ :: _, [] => false
  | a :: as, b :: bs => a < b || (a == b && lexLtCh as bs)

/-- Python string `<` (code-point lexicographic). -/
def strLt (a b : String) : Bool :=
  lexLtCh a.data b.data

/-- Ascending insertion used to model Python `sorted` on strings. -/
def insertStr (a : String) : List String → List String
  | [] => [a]
  | b :: l => if strLt a b then a :: b :: l else b :: insertStr a l

/-- Python `sorted` on a list of strings. -/
def sortStrings : List String → List String
  | [] => []
  | a :: l => insertStr a (sortStrings l)

/-- Deduplicate keeping the first occurrence (models building a `set`). -/
def dedupStrAux (seen : List String) : List String → List String
  | [] => []
  | a :: l =>
    if seen.contains a then dedupStrAux seen l
    else a :: dedupStrAux (a :: seen) l

/-- Python `sorted({w for w in l if ...})` applied after the filter:
deduplicate, then sort ascending. -/
def pySortedSet (l : List String) : List String :=
  sortStrings (dedupStrAux [] l)

/-! ## Detection vocabulary (src/spider_report.py lines 10-92) -/

def CORE_SPIDER_TERMS : List String :=
  ["spider", "spiders",
   "tarantula", "tarantulas",
   "wolf spider", "jumping spider", "trapdoor spider",
   "orb weaver", "orb-weaver",
   "funnel web spider", "funnel-web spider",
   "black widow", "brown recluse",
   "arachnid", "arachnids",
   "giant spider", "cave spider", "forest spider", "underground spider",
   "acromantula", "acromantulas",
   "aragog", "shelob", "ungoliant"]

def FORCED_SPIDER_PRESENCE : List (String × Bool) :=
  [("tt0417741", true)]

def SUPPORT_TERMS : List String :=
  ["cobweb", "cobwebs",
   "webs", "webbed", "webbing",
   "egg sac", "egg sacs",
   "spinneret", "spinnerets"]

def DECEASED_CONTEXT_TERMS : List String :=
  ["dead", "died", "death",
   "corpse", "body", "carcass", "remains", "lifeless",
   "funeral", "burial", "wake",
   "mourn", "mourns", "mourned",
   "eulogy", "pays respects"]

def EYE_CONTEXT_TERMS : List String :=
  ["eyes",
   "many eyes", "multiple eyes", "dozens of eyes", "rows of eyes",
   "glowing eyes", "shining eyes",
   "watching eyes", "staring eyes", "unblinking eyes"]

def SEVERITY_TERMS : List (String × Int) :=
  [("close-up", 3), ("close up", 3),
   ("giant", 2), ("huge", 2), ("massive", 2),
   ("swarm", 3), ("infestation", 3),
   ("nest", 2), ("horde", 2),
   ("crawling", 2), ("crawls", 2), ("skittering", 2),
   ("jump scare", 3), ("jumpscare", 3),
   ("attacks", 2), ("attack", 2),
   ("covered in spiders", 3), ("surrounded by spiders", 3),
   ("webs everywhere", 3), ("covered in webs", 3)]

def NEGATIVE_CONTEXT : List String :=
  ["spider-man", "spiderman", "spider verse", "spider-verse"]

def PREFERRED_DOMAINS : List (String × Int) :=
  [("imdb.com", 5),
   ("wikipedia.org", 4),
   ("commonsensemedia.org", 3),
   ("doesthedogdie.com", 3)]

/-! ## Hit and snippet extraction (src/spider_report.py lines 106-152) -/

/-- `extract_hits(text)` (lines 106-115): lower-case the text, collect the
core and support vocabulary terms contained in it as sorted deduplicated
lists, and force the support hits to be empty when there is no core hit. -/
def extract_hits (text : String) : List String × List String :=
  let t := lowerStr text
  let core_hits := pySortedSet (CORE_SPIDER_TERMS.filter (fun w => occurs w t))
  let support_hits := pySortedSet (SUPPORT_TERMS.filter (fun w => occurs w t))
  if core_hits.isEmpty then (core_hits, []) else (core_hits, support_hits)

/-- Loop body of `extract_context_snippets`: `budget` is the number of
snippets still allowed before reaching `max_snips` (the Python loop appends
and then breaks once the count reaches the cap). -/
def snipAux (textL lowerL : List Char) (window : Nat) : Nat → List String → List String
  | _, [] => []
  | budget, term :: rest =>
    match findIdx term.data lowerL with
    | none => snipAux textL lowerL window budget rest
    | some idx =>
      let start := idx - window
      let stop := min textL.length (idx + term.data.length + window)
      let snip := String.mk (stripChars ((textL.drop start).take (stop - start)))
      if budget ≤ 1 then [snip]
      else snip :: snipAux textL lowerL window (budget - 1) rest

/-- `extract_context_snippets(text, terms, window, max_snips)`
(lines 118-130): for each term in order, take the first occurrence in the
lower-cased text, slice a window of original-case characters around it,
strip it, and stop once `max_snips` snippets have been collected. -/
def extract_context_snippets (text : String) (terms : List String)
    (window : Nat) (max_snips : Nat) : List String :=
  snipAux text.data (text.data.map Char.toLower) window max_snips terms

/-- `has_any(text, terms)` (lines 133-135). -/
def has_any (text : String) (terms : List String) : Bool :=
  let t := lowerStr text
  terms.any (fun term => occurs term t)

/-- `is_deceased_context` (lines 138-139). -/
def is_deceased_context (snippets_text : String) : Bool :=
  has_any snippets_text DECEASED_CONTEXT_TERMS

/-- `has_eye_context` (lines 142-143). -/
def has_eye_context (snippets_text : String) : Bool :=
  has_any snippets_text EYE_CONTEXT_TERMS

/-- `severity_score(text)` (lines 146-152): each severity phrase found in
the lower-cased text contributes its weight once. -/
def severity_score (text : String) : Int :=
  let t := lowerStr text
  SEVERITY_TERMS.foldl (fun s kw => if occurs kw.1 t then s + kw.2 else s) 0

/-! ## Domain weights (src/spider_report.py lines 155-160) -/

/-- Characters following the first "//" of the URL, if any. -/
def afterDoubleSlash : List Char → Option (List Char)
  | [] => none
  | '/' :: '/' :: rest => some rest
  | _ :: t => afterDoubleSlash t

/-- Models `urlparse(url).netloc` (external stdlib collaborator) for the
absolute URLs the program handles: the characters between the first "//"
and the next '/', '?' or '#'; empty when the URL has no "//". -/
def urlNetloc (url : String) : String :=
  match afterDoubleSlash url.data with
  | none => ""
  | some rest =>
    String.mk (rest.takeWhile (fun c => c ≠ '/' && c ≠ '?' && c ≠ '#'))

/-- Python `host.replace("www.", "")`: delete every occurrence of "www.". -/
def removeWww : List Char → List Char
  | 'w' :: 'w' :: 'w' :: '.' :: rest => removeWww rest
  | c :: rest => c :: removeWww rest
  | [] => []

/-- The normalized host computed inside `domain_weight`:
`urlparse(url).netloc.lower().replace("www.", "")`. -/
def normalizedHost (url : String) : String :=
  String.mk (removeWww ((urlNetloc url).data.map Char.toLower))

/-- `domain_weight(url)` (lines 155-160): `PREFERRED_DOMAINS.get(host, 0)`. -/
def domain_weight (url : String) : Int :=
  (PREFERRED_DOMAINS.lookup (normalizedHost url)).getD 0

/-! ## Evidence records and providers (src/spider_report.py lines 208-419)

Network access is out of scope (an external collaborator), so each provider
takes its fetch outcome as an explicit argument: `Option String` for a raw
page body (`none` models a connection error or non-200 status), and a
lookup function for the summary API. HTML-to-text conversion
(`clean_text`, a BeautifulSoup wrapper) is likewise a collaborator and is
passed in as a function. -/

/-- The dict shape every provider returns. Web-page records in the source
carry no "ok" key; here `ok` defaults to `true` and is never read for
web records, matching `e.get("ok")` never being called on them. -/
structure EvidenceRecord where
  source : String
  url : String
  title : String := ""
  ok : Bool := true
  core_hits : List String
  support_hits : List String
  snippets : List String
  severity : Int
  deceased : Bool
  eye_context : Bool
deriving DecidableEq

/-- The all-empty record each provider emits when unavailable or when no
core hit is found. -/
def emptyEvidence (source url : String) (ok : Bool) : EvidenceRecord :=
  { source := source, url := url, ok := ok,
    core_hits := [], support_hits := [], snippets := [],
    severity := 0, deceased := false, eye_context := false }

/-- The parental-guide URL built at line 209. -/
def imdbGuideUrl (imdb_id : String) : String :=
  "https://www.imdb.com/title/" ++ imdb_id ++ "/parentalguide/"

/-- `imdb_parental_guide_evidence(imdb_id)` (lines 208-263). `fetched` is
the outcome of `fetch(url)`; the Python `if not html` check also treats an
empty body as a failure. -/
def imdb_parental_guide_evidence (cleanText : String → String)
    (imdb_id : String) (fetched : Option String) : EvidenceRecord :=
  let url := imdbGuideUrl imdb_id
  match fetched with
  | none => emptyEvidence "imdb_parentalguide" url false
  | some html =>
    if html.isEmpty then emptyEvidence "imdb_parentalguide" url false
    else
      let text := cleanText html
      let hits := extract_hits text
      if hits.1.isEmpty then emptyEvidence "imdb_parentalguide" url true
      else
        let snips := extract_context_snippets text (hits.1 ++ hits.2) 220 4
        let snip_text := lowerStr (String.intercalate " " snips)
        let deceased := is_deceased_context snip_text
        let eye_ctx := has_eye_context snip_text
        let sev0 := severity_score snip_text
        let sev1 := if eye_ctx && !deceased then sev0 + 3 else sev0
        let sev : Int := if deceased then 0 else sev1
        { source := "imdb_parentalguide", url := url, ok := true,
          core_hits := hits.1, support_hits := hits.2, snippets := snips,
          severity := sev, deceased := deceased, eye_context := eye_ctx }

/-- Outcome of one summary-API call (`extract` and the desktop page URL
pulled out of the JSON at lines 288-289); `none` models a request failure,
a non-200 status or a JSON decoding error, all of which `continue`. -/
structure SummaryResult where
  extract : String
  page_url : String
deriving DecidableEq

/-- The candidate page names tried in order (lines 270-274). -/
def wikiCandidates (movie_title movie_year : String) : List String :=
  [movie_title ++ " (film)",
   movie_title ++ " (" ++ movie_year ++ " film)",
   movie_title]

/-- Body of the successful branch of `wikipedia_evidence` for a candidate
whose stripped extract is non-empty (lines 294-331). -/
def wikiEvidenceFromSummary (extract page_url : String) : EvidenceRecord :=
  let hits := extract_hits extract
  if hits.1.isEmpty then emptyEvidence "wikipedia" page_url true
  else
    let snips := extract_context_snippets extract (hits.1 ++ hits.2) 200 3
    let snip_text := lowerStr (String.intercalate " " snips)
    let deceased := is_deceased_context snip_text
    let eye_ctx := has_eye_context snip_text
    let sev0 := severity_score snip_text + 2
    let sev1 := if eye_ctx && !deceased then sev0 + 3 else sev0
    let sev : Int := if deceased then 0 else sev1
    { source := "wikipedia", url := page_url, ok := true,
      core_hits := hits.1, support_hits := hits.2, snippets := snips,
      severity := sev, deceased := deceased, eye_context := eye_ctx }

/-- The candidate loop of `wikipedia_evidence` (lines 276-343): failed
lookups and empty extracts `continue`; the first non-empty extract is
used; exhaustion yields the unavailable record. -/
def wikipediaLoop (lookup : String → Option SummaryResult) :
    List String → EvidenceRecord
  | [] => emptyEvidence "wikipedia" "" false
  | cand :: rest =>
    match lookup cand with
    | none => wikipediaLoop lookup rest
    | some res =>
      let extract := stripStr res.extract
      if extract.isEmpty then wikipediaLoop lookup rest
      else wikiEvidenceFromSummary extract res.page_url

/-- `wikipedia_evidence(movie_title, movie_year)` (lines 266-343). -/
def wikipedia_evidence (lookup : String → Option SummaryResult)
    (movie_title movie_year : String) : EvidenceRecord :=
  wikipediaLoop lookup (wikiCandidates movie_title movie_year)

/-- One raw search result as returned by `duckduckgo_results`. -/
structure SearchResult where
  title : String := ""
  url : String
  snippet : String := ""
deriving DecidableEq

/-- The URL-dedup loop (lines 365-372): results with a falsy (empty) URL
or an already-seen URL are dropped; the first occurrence wins. -/
def dedupAux (seen : List String) : List SearchResult → List SearchResult
  | [] => []
  | r :: rest =>
    if r.url.isEmpty || seen.contains r.url then dedupAux seen rest
    else r :: dedupAux (r.url :: seen) rest

/-- Deduplicate collected results by URL, first occurrence winning. -/
def dedupByUrl (l : List SearchResult) : List SearchResult :=
  dedupAux [] l

/-- The lower-cased title-plus-snippet text ranked at line 375. -/
def resultText (item : SearchResult) : String :=
  lowerStr (item.title ++ " " ++ item.snippet)

/-- `core_bonus` of `rank` (line 376). -/
def coreBonus (item : SearchResult) : Int :=
  if CORE_SPIDER_TERMS.any (fun t => occurs t (resultText item)) then 1 else 0

/-- `neg_penalty` of `rank` (line 377). -/
def negPenalty (item : SearchResult) : Int :=
  if NEGATIVE_CONTEXT.any (fun b => occurs b (resultText item)) then 1 else 0

/-- `rank(item)` (lines 374-378): the composite sort key. -/
def rank (item : SearchResult) : Int × Int × Int :=
  (domain_weight item.url, coreBonus item, -negPenalty item)

/-- Lexicographic `≤` on integer triples (Python tuple comparison). -/
def lexLe3 (p q : Int × Int × Int) : Bool :=
  decide (p.1 < q.1) ||
    (decide (p.1 = q.1) &&
      (decide (p.2.1 < q.2.1) ||
        (decide (p.2.1 = q.2.1) && decide (p.2.2 ≤ q.2.2))))

/-- `a` sorts no later than `b` under `sort(key=rank, reverse=True)`. -/
def rankGe (a b : SearchResult) : Bool :=
  lexLe3 (rank b) (rank a)

/-- Stable insertion into a list already sorted descending by `rank`:
the new element, which originally came before every element of the list,
goes in front of the first element whose key is not larger. -/
def insertRanked (a : SearchResult) : List SearchResult → List SearchResult
  | [] => [a]
  | b :: l => if rankGe a b then a :: b :: l else b :: insertRanked a l

/-- Python `results.sort(key=rank, reverse=True)` (line 380): the unique
stable descending sort by the composite key. -/
def sortByRank : List SearchResult → List SearchResult
  | [] => []
  | a :: l => insertRanked a (sortByRank l)

/-- Dedup then rank, as performed on the collected results. -/
def rankedResults (raw : List SearchResult) : List SearchResult :=
  sortByRank (dedupByUrl raw)

/-- The body of the page loop (lines 383-417) for one candidate:
`none` when the fetch fails (or yields a falsy body) or when the cleaned
text has no core hit; otherwise the web-page evidence record. `fetchF`
models `fetch` and `cleanText` models `clean_text`. -/
def webEvidenceFor (cleanText : String → String)
    (fetchF : String → Option String) (r : SearchResult) :
    Option EvidenceRecord :=
  match fetchF r.url with
  | none => none
  | some html =>
    if html.isEmpty then none
    else
      let text := cleanText html
      let hits := extract_hits text
      if hits.1.isEmpty then none
      else
        let snips := extract_context_snippets text (hits.1 ++ hits.2) 240 4
        let snip_text := lowerStr (String.intercalate " " snips)
        let deceased := is_deceased_context snip_text
        let eye_ctx := has_eye_context snip_text
        let sev0 := severity_score snip_text + domain_weight r.url
        let sev1 := if eye_ctx && !deceased then sev0 + 3 else sev0
        let sev : Int := if deceased then 0 else sev1
        some { source := "web_page", url := r.url, title := r.title, ok := true,
               core_hits := hits.1, support_hits := hits.2, snippets := snips,
               severity := sev, deceased := deceased, eye_context := eye_ctx }

/-- `search_and_fetch_evidence` after result collection (lines 365-419):
dedup by URL, sort by the composite key, then walk the top `max_pages`
candidates in rank order, keeping the records of the pages that fetch
successfully and contain core hits. -/
def search_and_fetch_evidence (cleanText : String → String)
    (fetchF : String → Option String) (raw_results : List SearchResult)
    (max_pages : Nat) : List EvidenceRecord :=
  ((rankedResults raw_results).take max_pages).filterMap
    (webEvidenceFor cleanText fetchF)

/-! ## Aggregation (src/spider_report.py lines 425-499) -/

/-- `spider_present(imdb_ev, wiki_ev, web_evs, imdb_id)` (lines 425-437). -/
def spider_present (imdb_ev wiki_ev : EvidenceRecord)
    (web_evs : List EvidenceRecord) (imdb_id : String) : Bool :=
  match FORCED_SPIDER_PRESENCE.lookup imdb_id with
  | some v => v
  | none =>
    if !imdb_ev.core_hits.isEmpty then true
    else if !wiki_ev.core_hits.isEmpty then true
    else web_evs.any (fun e => !e.core_hits.isEmpty)

/-- The point score accumulated by `score_confidence` (lines 446-457). -/
def scoreVal (imdb_ev wiki_ev : EvidenceRecord)
    (web_evs : List EvidenceRecord) : Int :=
  let score0 : Int := 0
  let score1 := if imdb_ev.ok && !imdb_ev.core_hits.isEmpty then score0 + 7 else score0
  let score2 := if wiki_ev.ok && !wiki_ev.core_hits.isEmpty then score1 + 4 else score1
  let score3 := score2 + min 6 (web_evs.length : Int)
  let sev_total := imdb_ev.severity + wiki_ev.severity +
    (web_evs.map (fun e => e.severity)).sum
  score3 + min 4 (Int.fdiv sev_total 4)

/-- `score_confidence(imdb_ev, wiki_ev, web_evs)` (lines 441-463). -/
def score_confidence (imdb_ev wiki_ev : EvidenceRecord)
    (web_evs : List EvidenceRecord) : String × Int :=
  let score := scoreVal imdb_ev wiki_ev web_evs
  if score ≥ 12 then ("high", score)
  else if score ≥ 6 then ("medium", score)
  else ("low", score)

/-- The severity-label computation of `build_report` (lines 476-489),
over the combined list `[imdb_ev, wiki_ev] + web_evs`. -/
def severity_label_of (all_evs : List EvidenceRecord) (present : Bool) : String :=
  let spider_evs := all_evs.filter (fun e => !e.core_hits.isEmpty)
  let any_eye_alive := spider_evs.any (fun e => e.eye_context && !e.deceased)
  let any_alive := spider_evs.any (fun e => !e.core_hits.isEmpty && !e.deceased)
  let lab :=
    if !spider_evs.isEmpty && !any_alive then "deceased-only"
    else if present then "present"
    else "none"
  if any_eye_alive && (lab == "present") then "present+eye-closeups" else lab

/-! ## Specification-side definitions

These restate parts of the specification in its own words, to be compared
with the definitions translated from the source. -/

/-- The flags that must accompany an empty `core_hits` set according to the
central extraction invariant. -/
def noCoreFlags (r : EvidenceRecord) : Prop :=
  r.support_hits = [] ∧ r.snippets = [] ∧ r.severity = 0 ∧
    r.deceased = false ∧ r.eye_context = false

instance (r : EvidenceRecord) : Decidable (noCoreFlags r) := by
  unfold noCoreFlags; infer_instance

/-- The severity finalization rule as the specification words it: if
deceased, force 0 regardless of other signals; otherwise add +3 exactly
when eye-context holds. -/
def severityFinalize (raw : Int) (deceased eye_ctx : Bool) : Int :=
  if deceased then 0 else if eye_ctx then raw + 3 else raw

/-- The lower-cased concatenation of a record's snippets, the text the
context classifiers run on (`" ".join(snips).lower()`). -/
def snipJoin (snippets : List String) : String :=
  lowerStr (String.intercalate " " snippets)

/-- `severity_label` as the specification words it: among the records with
non-empty core hits, if there is at least one and every one is deceased the
label is deceased-only; otherwise presence gives present, upgraded to
present+eye-closeups exactly when some non-deceased core-hit record has eye
context; otherwise none. -/
def severity_label_spec (all_evs : List EvidenceRecord) (present : Bool) : String :=
  let spider_evs := all_evs.filter (fun e => !e.core_hits.isEmpty)
  if spider_evs ≠ [] ∧ ∀ e ∈ spider_evs, e.deceased = true then "deceased-only"
  else if present then
    (if ∃ e ∈ spider_evs, e.eye_context = true ∧ e.deceased = false then
      "present+eye-closeups"
    else "present")
  else "none"

/-- The confidence-tier map as the specification words it. -/
def tierOf (score : Int) : String :=
  if score ≥ 12 then "high" else if score ≥ 6 then "medium" else "low"

/-- The point score as the specification words it: a largest fixed bonus
for an available parental-guide record with core hits, a smaller one for
the encyclopedia record, one point per web-page record with core hits
capped at 6, plus the summed severity divided by 4 capped at 4. -/
def score_spec (imdb_ev wiki_ev : EvidenceRecord)
    (web_evs : List EvidenceRecord) : Int :=
  (if imdb_ev.ok = true ∧ imdb_ev.core_hits ≠ [] then 7 else 0)
    + (if wiki_ev.ok = true ∧ wiki_ev.core_hits ≠ [] then 4 else 0)
    + min 6 (((web_evs.filter (fun e => !e.core_hits.isEmpty)).length : Int))
    + min 4 (Int.fdiv
        (imdb_ev.severity + wiki_ev.severity +
          (web_evs.map (fun e => e.severity)).sum) 4)

/-! ## Concrete sample inputs used by witnesses and counterexamples -/

/-- A search result on a preferred domain whose title mentions a core term. -/
def samplePreferred : SearchResult :=
  { title := "spider scene", url := "https://www.imdb.com/title/tt2/", snippet := "" }

/-- A search result on an unlisted domain with the same title. -/
def samplePlain : SearchResult :=
  { title := "spider scene", url := "https://example.com/a", snippet := "" }

/-- A fetched page body containing a core term and nothing else of note. -/
def samplePage : String := "A spider."

/-- The record the web provider builds for `samplePreferred` when every
fetch returns `samplePage`: the preferred-domain weight 5 flows into its
severity although its snippet text carries no severity phrase. -/
def sampleWebRecord : EvidenceRecord :=
  { source := "web_page", url := "https://www.imdb.com/title/tt2/",
    title := "spider scene", ok := true,
    core_hits := ["spider"], support_hits := [], snippets := ["A spider."],
    severity := 5, deceased := false, eye_context := false }

/-- A parental-guide page text used to exercise the severity rule. -/
def sampleGuideText : String := "The cave spider crawls toward them."

/-! ## Helper lemmas -/

theorem lookup_some_mem {l : List (String × Int)} {k : String} {v : Int}
    (h : l.lookup k = some v) : k ∈ l.map Prod.fst := by
  induction l with
  | nil => simp [List.lookup] at h
  | cons a t ih =>
    rw [List.lookup] at h
    rcases hk : (k == a.1) with _ | _
    · rw [hk] at h
      exact List.mem_cons_of_mem _ (ih h)
    · exact List.mem_cons.mpr (Or.inl (beq_iff_eq.mp hk))

theorem extract_hits_fst_nil_of_no_core {text : String}
    (h : ∀ w ∈ CORE_SPIDER_TERMS, occurs w (lowerStr text) = false) :
    extract_hits text = ([], []) := by
  unfold extract_hits
  have hfil : CORE_SPIDER_TERMS.filter (fun w => occurs w (lowerStr text)) = [] := by
    rw [List.filter_eq_nil_iff]
    intro w hw
    simp [h w hw]
  simp [hfil, pySortedSet, dedupStrAux, sortStrings]

theorem extract_hits_snd_nil {text : String}
    (h : (extract_hits text).1 = []) : (extract_hits text).2 = [] := by
  unfold extract_hits at *
  by_cases hc :
      (pySortedSet (CORE_SPIDER_TERMS.filter (fun w => occurs w (lowerStr text)))).isEmpty
  · simp [hc]
  · simp only [hc, if_false, Bool.false_eq_true] at h ⊢
    rw [h] at hc
    simp at hc

/-- Claim C10: `domain_weight` is positive only when the lowercased,
"www."-stripped network location is exactly a key of `PREFERRED_DOMAINS`;
subdomain hosts such as en.wikipedia.org or m.imdb.com get weight 0. -/
theorem domain_weight_only_exact_hosts :
    (∀ url : String, 0 < domain_weight url →
      normalizedHost url ∈ PREFERRED_DOMAINS.map Prod.fst)
    ∧ domain_weight "https://en.wikipedia.org/wiki/Arachnophobia" = 0
    ∧ domain_weight "https://m.imdb.com/title/tt0099052/" = 0
    ∧ domain_weight "https://www.imdb.com/title/tt0099052/" = 5 := by
  refine ⟨?_, by decide, by decide, by decide⟩
  intro url h
  unfold domain_weight at h
  rcases hk : PREFERRED_DOMAINS.lookup (normalizedHost url) with _ | v
  · rw [hk] at h
    simp at h
  · exact lookup_some_mem hk

/-- Witness for C10 at a concrete preferred-domain URL. -/
theorem domain_weight_witness :
    normalizedHost "https://www.imdb.com/title/tt0099052/" ∈
      PREFERRED_DOMAINS.map Prod.fst :=
  domain_weight_only_exact_hosts.1 "https://www.imdb.com/title/tt0099052/" (by decide)

/-- Claim C2: `spider_present` returns the forced override unconditionally
when the canonical id is a key of the override table, and otherwise is true
exactly when some record among parental-guide, encyclopedia and the
web-page records has non-empty core hits. -/
theorem spider_present_correct :
    ∀ (imdb_ev wiki_ev : EvidenceRecord) (web_evs : List EvidenceRecord)
      (imdb_id : String),
      (∀ v : Bool, FORCED_SPIDER_PRESENCE.lookup imdb_id = some v →
        spider_present imdb_ev wiki_ev web_evs imdb_id = v)
      ∧ (FORCED_SPIDER_PRESENCE.lookup imdb_id = none →
        (spider_present imdb_ev wiki_ev web_evs imdb_id = true ↔
          imdb_ev.core_hits ≠ [] ∨ wiki_ev.core_hits ≠ [] ∨
            ∃ e ∈ web_evs, e.core_hits ≠ [])) := by
  intro i w web id
  constructor
  · intro v h
    unfold spider_present
    rw [h]
  · intro h
    unfold spider_present
    rw [h]
    by_cases h1 : i.core_hits = []
    · by_cases h2 : w.core_hits = []
      · simp [h1, h2, List.any_eq_true, List.isEmpty_eq_false]
      · simp [h1, h2, List.isEmpty_eq_false]
    · simp [h1, List.isEmpty_eq_false]

/-- Witness for C2: the forced override fires for the overridden id even
with every provider unavailable. -/
theorem spider_present_witness :
    spider_present (emptyEvidence "imdb_parentalguide" "" false)
      (emptyEvidence "wikipedia" "" false) [] "tt0417741" = true :=
  (spider_present_correct (emptyEvidence "imdb_parentalguide" "" false)
    (emptyEvidence "wikipedia" "" false) [] "tt0417741").1 true (by decide)

theorem noCoreFlags_emptyEvidence (s u : String) (ok : Bool) :
    noCoreFlags (emptyEvidence s u ok) :=
  ⟨rfl, rfl, rfl, rfl, rfl⟩

/-- The two-step severity adjustment of the source equals the
specification's finalization rule. -/
theorem finalize_eq (raw : Int) (d e : Bool) :
    (if d = true then 0 else if (e && !d) = true then raw + 3 else raw) =
      severityFinalize raw d e := by
  cases d <;> cases e <;> simp [severityFinalize]

/-- `wikipedia_evidence` returns either the unavailable record or the
record built from some candidate summary. -/
theorem wikipediaLoop_shape (lookup : String → Option SummaryResult) :
    ∀ cands : List String,
      wikipediaLoop lookup cands = emptyEvidence "wikipedia" "" false
      ∨ ∃ ex p, wikipediaLoop lookup cands = wikiEvidenceFromSummary ex p := by
  intro cands
  induction cands with
  | nil => exact Or.inl rfl
  | cons c rest ih =>
    rcases hc : lookup c with _ | res
    · simpa only [wikipediaLoop, hc] using ih
    · by_cases he : (stripStr res.extract).isEmpty
      · have hrw : wikipediaLoop lookup (c :: rest) = wikipediaLoop lookup rest := by
          simp only [wikipediaLoop, hc]
          exact if_pos he
        rw [hrw]
        exact ih
      · right
        refine ⟨stripStr res.extract, res.page_url, ?_⟩
        simp only [wikipediaLoop, hc]
        exact if_neg he

theorem wikiEvidenceFromSummary_core_gate (ex p : String)
    (h : (wikiEvidenceFromSummary ex p).core_hits = []) :
    noCoreFlags (wikiEvidenceFromSummary ex p) := by
  by_cases hc : (extract_hits ex).1.isEmpty
  · have hrw : wikiEvidenceFromSummary ex p = emptyEvidence "wikipedia" p true := by
      simp only [wikiEvidenceFromSummary]
      exact if_pos hc
    rw [hrw]
    exact noCoreFlags_emptyEvidence _ _ _
  · exfalso
    have hcore : (wikiEvidenceFromSummary ex p).core_hits = (extract_hits ex).1 := by
      simp only [wikiEvidenceFromSummary]
      rw [if_neg hc]
    rw [hcore] at h
    rw [h] at hc
    exact hc rfl

/-- Inversion for the web-page loop body: a produced record has core hits,
keeps the candidate URL, comes from a successful fetch, and finalizes its
severity from its own snippets plus the URL's domain weight. -/
theorem webEvidenceFor_some {ct : String → String} {f : String → Option String}
    {r : SearchResult} {e : EvidenceRecord}
    (h : webEvidenceFor ct f r = some e) :
    e.core_hits ≠ [] ∧ e.url = r.url ∧ f r.url ≠ none ∧
      e.severity = severityFinalize
        (severity_score (snipJoin e.snippets) + domain_weight e.url)
        e.deceased e.eye_context := by
  rw [webEvidenceFor] at h
  rcases hf : f r.url with _ | html
  · rw [hf] at h
    cases h
  · rw [hf] at h
    dsimp only at h
    by_cases h1 : html.isEmpty
    · rw [if_pos h1] at h
      cases h
    · rw [if_neg h1] at h
      by_cases h2 : (extract_hits (ct html)).1.isEmpty
      · rw [if_pos h2] at h
        cases h
      · rw [if_neg h2] at h
        have he := Option.some.inj h
        subst he
        refine ⟨by simpa [List.isEmpty_eq_false] using h2, rfl, by simp [hf], ?_⟩
        exact finalize_eq _ _ _

/-- Claim C1: support hits never appear without core hits, and in every
provider record empty core hits force empty support hits, empty snippets,
zero severity and cleared deceased and eye-context flags. -/
theorem core_gate_invariant :
    (∀ text : String,
      (∀ w ∈ CORE_SPIDER_TERMS, occurs w (lowerStr text) = false) →
        extract_hits text = ([], []))
    ∧ (∀ text : String, (extract_hits text).1 = [] → (extract_hits text).2 = [])
    ∧ (∀ (ct : String → String) (imdb_id : String) (fetched : Option String),
        (imdb_parental_guide_evidence ct imdb_id fetched).core_hits = [] →
        noCoreFlags (imdb_parental_guide_evidence ct imdb_id fetched))
    ∧ (∀ (lookup : String → Option SummaryResult) (t y : String),
        (wikipedia_evidence lookup t y).core_hits = [] →
        noCoreFlags (wikipedia_evidence lookup t y))
    ∧ (∀ (ct : String → String) (f : String → Option String)
        (raw : List SearchResult) (n : Nat),
        ∀ e ∈ search_and_fetch_evidence ct f raw n,
          e.core_hits = [] → noCoreFlags e) := by
  refine ⟨fun text h => extract_hits_fst_nil_of_no_core h,
          fun text h => extract_hits_snd_nil h, ?_, ?_, ?_⟩
  · intro ct id fetched h
    rcases fetched with _ | html
    · exact noCoreFlags_emptyEvidence _ _ _
    · by_cases h1 : html.isEmpty
      · have hrw : imdb_parental_guide_evidence ct id (some html) =
            emptyEvidence "imdb_parentalguide" (imdbGuideUrl id) false := by
          simp only [imdb_parental_guide_evidence]
          exact if_pos h1
        rw [hrw]
        exact noCoreFlags_emptyEvidence _ _ _
      · by_cases h2 : (extract_hits (ct html)).1.isEmpty
        · have hrw : imdb_parental_guide_evidence ct id (some html) =
              emptyEvidence "imdb_parentalguide" (imdbGuideUrl id) true := by
            simp only [imdb_parental_guide_evidence]
            rw [if_neg h1]
            exact if_pos h2
          rw [hrw]
          exact noCoreFlags_emptyEvidence _ _ _
        · exfalso
          have hcore : (imdb_parental_guide_evidence ct id (some html)).core_hits =
              (extract_hits (ct html)).1 := by
            simp only [imdb_parental_guide_evidence]
            rw [if_neg h1, if_neg h2]
          rw [hcore] at h
          rw [h] at h2
          exact h2 rfl
  · intro lookup t y h
    unfold wikipedia_evidence at h ⊢
    rcases wikipediaLoop_shape lookup (wikiCandidates t y) with hs | ⟨ex, p, hs⟩
    · rw [hs]
      exact noCoreFlags_emptyEvidence _ _ _
    · rw [hs] at h ⊢
      exact wikiEvidenceFromSummary_core_gate ex p h
  · intro ct f raw n e he hnil
    rcases List.mem_filterMap.mp he with ⟨r, _, hr⟩
    exact absurd hnil (webEvidenceFor_some hr).1

/-- Witness for C1: a text with only support terms yields no hits at all. -/
theorem core_gate_witness :
    extract_hits "Cobwebs and webbing everywhere." = ([], []) :=
  core_gate_invariant.1 "Cobwebs and webbing everywhere." (by decide)

theorem foldl_if_add_sum (p : String → Bool) :
    ∀ (l : List (String × Int)) (init : Int),
      l.foldl (fun s kw => if p kw.1 then s + kw.2 else s) init
        = init + ((l.filter (fun kw => p kw.1)).map Prod.snd).sum := by
  intro l
  induction l with
  | nil => intro init; simp
  | cons a t ih =>
    intro init
    by_cases hp : p a.1
    · simp only [List.foldl_cons, List.filter_cons, hp, if_true]
      rw [ih]
      simp only [List.map_cons, List.sum_cons]
      omega
    · simp only [List.foldl_cons, List.filter_cons, hp, if_false]
      exact ih init

theorem imdb_severity_rule (ct : String → String) (imdb_id : String)
    (fetched : Option String)
    (h : (imdb_parental_guide_evidence ct imdb_id fetched).core_hits ≠ []) :
    (imdb_parental_guide_evidence ct imdb_id fetched).severity =
      severityFinalize
        (severity_score (snipJoin
          (imdb_parental_guide_evidence ct imdb_id fetched).snippets))
        (imdb_parental_guide_evidence ct imdb_id fetched).deceased
        (imdb_parental_guide_evidence ct imdb_id fetched).eye_context := by
  rcases fetched with _ | html
  · exact absurd rfl h
  · by_cases h1 : html.isEmpty
    · exfalso
      apply h
      show (imdb_parental_guide_evidence ct imdb_id (some html)).core_hits = []
      simp only [imdb_parental_guide_evidence]
      rw [if_pos h1]
      rfl
    · by_cases h2 : (extract_hits (ct html)).1.isEmpty
      · exfalso
        apply h
        show (imdb_parental_guide_evidence ct imdb_id (some html)).core_hits = []
        simp only [imdb_parental_guide_evidence]
        rw [if_neg h1, if_pos h2]
        rfl
      · simp only [imdb_parental_guide_evidence]
        rw [if_neg h1, if_neg h2]
        exact finalize_eq _ _ _

theorem wikiSummary_severity_rule (ex p : String)
    (h : (wikiEvidenceFromSummary ex p).core_hits ≠ []) :
    (wikiEvidenceFromSummary ex p).severity =
      severityFinalize
        (severity_score (snipJoin (wikiEvidenceFromSummary ex p).snippets) + 2)
        (wikiEvidenceFromSummary ex p).deceased
        (wikiEvidenceFromSummary ex p).eye_context := by
  by_cases hc : (extract_hits ex).1.isEmpty
  · exfalso
    apply h
    show (wikiEvidenceFromSummary ex p).core_hits = []
    simp only [wikiEvidenceFromSummary]
    rw [if_pos hc]
    rfl
  · simp only [wikiEvidenceFromSummary]
    rw [if_neg hc]
    exact finalize_eq _ _ _

/-- Claim C4 counterexample: the claim's severity rule is false for the
web-page provider, whose raw severity is not computed from the extracted
snippets alone. For the single result `samplePreferred` (host imdb.com,
weight 5) with page text "A spider.", the produced record has severity 5
while its snippet text carries no severity phrase and neither flag is set,
so the snippets-only rule demands severity 0. -/
theorem web_severity_rule_counterexample :
    ¬ (∀ (ct : String → String) (f : String → Option String)
        (raw_results : List SearchResult) (n : Nat),
        ∀ e ∈ search_and_fetch_evidence ct f raw_results n,
          e.severity = severityFinalize (severity_score (snipJoin e.snippets))
            e.deceased e.eye_context) := by
  intro hcl
  have hm : sampleWebRecord ∈
      search_and_fetch_evidence (fun s => s) (fun _ => some samplePage)
        [samplePreferred] 12 := by decide
  have hc := hcl (fun s => s) (fun _ => some samplePage) [samplePreferred] 12
    sampleWebRecord hm
  revert hc
  decide

/-- Claim C4 (amended): every provider finalizes severity by the shared
rule — deceased forces the final severity to 0; otherwise eye-context adds
exactly +3 — applied to a raw severity in which each severity phrase of
the record's own snippet text contributes its weight at most once; the
encyclopedia provider adds a fixed +2 trust bonus to the raw severity
before the adjustments, and the web-page provider additionally adds the
URL's preferred-domain weight to the raw severity before the adjustments. -/
theorem provider_severity_rule :
    (∀ text : String, severity_score text =
      ((SEVERITY_TERMS.filter
        (fun kw => occurs kw.1 (lowerStr text))).map Prod.snd).sum)
    ∧ (∀ (ct : String → String) (imdb_id : String) (fetched : Option String),
        (imdb_parental_guide_evidence ct imdb_id fetched).core_hits ≠ [] →
        (imdb_parental_guide_evidence ct imdb_id fetched).severity =
          severityFinalize
            (severity_score (snipJoin
              (imdb_parental_guide_evidence ct imdb_id fetched).snippets))
            (imdb_parental_guide_evidence ct imdb_id fetched).deceased
            (imdb_parental_guide_evidence ct imdb_id fetched).eye_context)
    ∧ (∀ (lookup : String → Option SummaryResult) (t y : String),
        (wikipedia_evidence lookup t y).core_hits ≠ [] →
        (wikipedia_evidence lookup t y).severity =
          severityFinalize
            (severity_score (snipJoin (wikipedia_evidence lookup t y).snippets) + 2)
            (wikipedia_evidence lookup t y).deceased
            (wikipedia_evidence lookup t y).eye_context)
    ∧ (∀ (ct : String → String) (f : String → Option String)
        (raw_results : List SearchResult) (n : Nat),
        ∀ e ∈ search_and_fetch_evidence ct f raw_results n,
          e.severity = severityFinalize
            (severity_score (snipJoin e.snippets) + domain_weight e.url)
            e.deceased e.eye_context) := by
  refine ⟨?_, imdb_severity_rule, ?_, ?_⟩
  · intro text
    unfold severity_score
    rw [foldl_if_add_sum (fun w => occurs w (lowerStr text))]
    omega
  · intro lookup t y h
    unfold wikipedia_evidence at h ⊢
    rcases wikipediaLoop_shape lookup (wikiCandidates t y) with hs | ⟨ex, p, hs⟩
    · rw [hs] at h
      exact absurd rfl h
    · rw [hs] at h ⊢
      exact wikiSummary_severity_rule ex p h
  · intro ct f raw_results n e he
    rcases List.mem_filterMap.mp he with ⟨r, _, hr⟩
    exact (webEvidenceFor_some hr).2.2.2

/-- Witness for the amended C4 at a concrete parental-guide page. -/
theorem provider_severity_witness :
    (imdb_parental_guide_evidence (fun s => s) "tt1" (some sampleGuideText)).severity =
      severityFinalize
        (severity_score (snipJoin
          (imdb_parental_guide_evidence (fun s => s) "tt1" (some sampleGuideText)).snippets))
        (imdb_parental_guide_evidence (fun s => s) "tt1" (some sampleGuideText)).deceased
        (imdb_parental_guide_evidence (fun s => s) "tt1" (some sampleGuideText)).eye_context :=
  provider_severity_rule.2.1 (fun s => s) "tt1" (some sampleGuideText) (by decide)

theorem scoreVal_eq_spec (imdb_ev wiki_ev : EvidenceRecord)
    (web_evs : List EvidenceRecord) (hw : ∀ e ∈ web_evs, e.core_hits ≠ []) :
    scoreVal imdb_ev wiki_ev web_evs = score_spec imdb_ev wiki_ev web_evs := by
  have hfil : web_evs.filter (fun e => !e.core_hits.isEmpty) = web_evs :=
    List.filter_eq_self.mpr (fun e he => by
      simpa [List.isEmpty_eq_false] using hw e he)
  unfold scoreVal score_spec
  rw [hfil]
  by_cases h1 : imdb_ev.ok = true ∧ imdb_ev.core_hits ≠ []
  · by_cases h2 : wiki_ev.ok = true ∧ wiki_ev.core_hits ≠ []
    · simp only [Bool.and_eq_true, Bool.not_eq_true', List.isEmpty_eq_false,
        if_pos h1, if_pos h2]
      try ring
    · simp only [Bool.and_eq_true, Bool.not_eq_true', List.isEmpty_eq_false,
        if_pos h1, if_neg h2]
      try ring
  · by_cases h2 : wiki_ev.ok = true ∧ wiki_ev.core_hits ≠ []
    · simp only [Bool.and_eq_true, Bool.not_eq_true', List.isEmpty_eq_false,
        if_neg h1, if_pos h2]
      try ring
    · simp only [Bool.and_eq_true, Bool.not_eq_true', List.isEmpty_eq_false,
        if_neg h1, if_neg h2]
      try ring

/-- Claim C5: `score_confidence` accumulates 7 for an available
parental-guide record with core hits, 4 for an available encyclopedia
record with core hits, one point per web-page record with core hits capped
at 6, plus the summed severity divided by 4 capped at 4, and maps the
total through the fixed thresholds 12 (high) and 6 (medium). -/
theorem score_confidence_correct :
    ∀ (imdb_ev wiki_ev : EvidenceRecord) (web_evs : List EvidenceRecord),
      (∀ e ∈ web_evs, e.core_hits ≠ []) →
      score_confidence imdb_ev wiki_ev web_evs =
        (tierOf (score_spec imdb_ev wiki_ev web_evs),
         score_spec imdb_ev wiki_ev web_evs) := by
  intro i w web hw
  have hval := scoreVal_eq_spec i w web hw
  simp only [score_confidence, tierOf]
  rw [hval]
  split_ifs <;> rfl

/-- Witness for C5 on a concrete record set. -/
theorem score_confidence_witness :
    score_confidence (emptyEvidence "imdb_parentalguide" "" false)
        (emptyEvidence "wikipedia" "" false) [sampleWebRecord] =
      (tierOf (score_spec (emptyEvidence "imdb_parentalguide" "" false)
          (emptyEvidence "wikipedia" "" false) [sampleWebRecord]),
       score_spec (emptyEvidence "imdb_parentalguide" "" false)
          (emptyEvidence "wikipedia" "" false) [sampleWebRecord]) :=
  score_confidence_correct (emptyEvidence "imdb_parentalguide" "" false)
    (emptyEvidence "wikipedia" "" false) [sampleWebRecord] (by decide)

/-- Claim C6: appending one more web-page record with core hits and
non-negative severity never decreases the aggregate score. -/
theorem score_monotone :
    ∀ (imdb_ev wiki_ev e : EvidenceRecord) (web_evs : List EvidenceRecord),
      e.core_hits ≠ [] → 0 ≤ e.severity →
      (score_confidence imdb_ev wiki_ev web_evs).2 ≤
        (score_confidence imdb_ev wiki_ev (web_evs ++ [e])).2 := by
  intro i w e web hcore hsev
  have hsnd : ∀ l : List EvidenceRecord,
      (score_confidence i w l).2 = scoreVal i w l := by
    intro l
    simp only [score_confidence]
    split_ifs <;> rfl
  rw [hsnd, hsnd]
  unfold scoreVal
  have hlen : min (6:Int) ((web.length : Nat) : Int) ≤
      min 6 (((web ++ [e]).length : Nat) : Int) := by
    apply min_le_min le_rfl
    simp [List.length_append]
  have hdiv : min (4:Int)
        (Int.fdiv (i.severity + w.severity +
          (web.map (fun x => x.severity)).sum) 4) ≤
      min 4 (Int.fdiv (i.severity + w.severity +
          (((web ++ [e]).map (fun x => x.severity)).sum)) 4) := by
    apply min_le_min le_rfl
    rw [Int.fdiv_eq_ediv _ (by norm_num), Int.fdiv_eq_ediv _ (by norm_num)]
    apply Int.ediv_le_ediv (by norm_num)
    simp only [List.map_append, List.sum_append, List.map_cons, List.map_nil,
      List.sum_cons, List.sum_nil]
    linarith
  exact add_le_add (add_le_add le_rfl hlen) hdiv

/-- Witness for C6: appending a core-hit record to the empty web list. -/
theorem score_monotone_witness :
    (score_confidence (emptyEvidence "imdb_parentalguide" "" false)
        (emptyEvidence "wikipedia" "" false) []).2 ≤
      (score_confidence (emptyEvidence "imdb_parentalguide" "" false)
        (emptyEvidence "wikipedia" "" false) ([] ++ [sampleWebRecord])).2 :=
  score_monotone (emptyEvidence "imdb_parentalguide" "" false)
    (emptyEvidence "wikipedia" "" false) sampleWebRecord [] (by decide) (by decide)

/-- Claim C3: the severity label of `build_report` follows the
specification's rule — deceased-only when there is at least one core-hit
record and all of them are deceased (even when presence is true); otherwise
present when presence holds, upgraded to present+eye-closeups exactly when
some non-deceased core-hit record has eye context; otherwise none. -/
theorem severity_label_correct :
    ∀ (all_evs : List EvidenceRecord) (present : Bool),
      severity_label_of all_evs present = severity_label_spec all_evs present := by
  intro evs present
  simp only [severity_label_of, severity_label_spec]
  by_cases h1 : evs.filter (fun e => !e.core_hits.isEmpty) = []
  · rw [h1]
    cases present <;> simp
  · have hne : (evs.filter (fun e => !e.core_hits.isEmpty)).isEmpty = false :=
      List.isEmpty_eq_false.mpr h1
    by_cases h2 : ∀ e ∈ evs.filter (fun e => !e.core_hits.isEmpty), e.deceased = true
    · have hcond : evs.filter (fun e => !e.core_hits.isEmpty) ≠ [] ∧
          ∀ e ∈ evs.filter (fun e => !e.core_hits.isEmpty), e.deceased = true :=
        ⟨h1, h2⟩
      have ha : (evs.filter (fun e => !e.core_hits.isEmpty)).any
          (fun e => !e.core_hits.isEmpty && !e.deceased) = false := by
        rw [List.any_eq_false]
        intro e he
        simp [h2 e he]
      have hb : (evs.filter (fun e => !e.core_hits.isEmpty)).any
          (fun e => e.eye_context && !e.deceased) = false := by
        rw [List.any_eq_false]
        intro e he
        simp [h2 e he]
      rw [ha, hb, if_pos hcond]
      simp [hne]
    · have hncond : ¬(evs.filter (fun e => !e.core_hits.isEmpty) ≠ [] ∧
          ∀ e ∈ evs.filter (fun e => !e.core_hits.isEmpty), e.deceased = true) :=
        fun hand => h2 hand.2
      have hex : ∃ e ∈ evs.filter (fun e => !e.core_hits.isEmpty),
          e.deceased = false := by
        push_neg at h2
        rcases h2 with ⟨e, he, hd⟩
        exact ⟨e, he, by simpa using hd⟩
      have ha : (evs.filter (fun e => !e.core_hits.isEmpty)).any
          (fun e => !e.core_hits.isEmpty && !e.deceased) = true := by
        rcases hex with ⟨e, he, hd⟩
        rw [List.any_eq_true]
        refine ⟨e, he, ?_⟩
        have hc := (List.mem_filter.mp he).2
        simp [hc, hd]
      rw [ha, if_neg hncond]
      cases present
      · simp
      · by_cases h3 : ∃ e ∈ evs.filter (fun e => !e.core_hits.isEmpty),
            e.eye_context = true ∧ e.deceased = false
        · have hb : (evs.filter (fun e => !e.core_hits.isEmpty)).any
              (fun e => e.eye_context && !e.deceased) = true := by
            rcases h3 with ⟨e, he, hy, hd⟩
            rw [List.any_eq_true]
            exact ⟨e, he, by simp [hy, hd]⟩
          rw [hb, if_pos h3]
          simp [hne]
        · have hb : (evs.filter (fun e => !e.core_hits.isEmpty)).any
              (fun e => e.eye_context && !e.deceased) = false := by
            rw [List.any_eq_false]
            intro e he hpe
            exact h3 ⟨e, he, by simpa [Bool.and_eq_true] using hpe⟩
          rw [hb, if_neg h3]
          simp [hne]

theorem lexLe3_total (p q : Int × Int × Int) :
    lexLe3 p q = true ∨ lexLe3 q p = true := by
  rcases p with ⟨a, b, c⟩
  rcases q with ⟨d, e, f⟩
  simp only [lexLe3, Bool.or_eq_true, Bool.and_eq_true, decide_eq_true_eq]
  omega

theorem lexLe3_trans {p q r : Int × Int × Int}
    (h1 : lexLe3 p q = true) (h2 : lexLe3 q r = true) : lexLe3 p r = true := by
  rcases p with ⟨a, b, c⟩
  rcases q with ⟨d, e, f⟩
  rcases r with ⟨g, i, j⟩
  simp only [lexLe3, Bool.or_eq_true, Bool.and_eq_true, decide_eq_true_eq] at h1 h2 ⊢
  omega

theorem rankGe_total (a b : SearchResult) :
    rankGe a b = true ∨ rankGe b a = true :=
  (lexLe3_total (rank b) (rank a)).elim Or.inl Or.inr

theorem rankGe_trans {a b c : SearchResult} (h1 : rankGe a b = true)
    (h2 : rankGe b c = true) : rankGe a c = true :=
  lexLe3_trans h2 h1

theorem mem_insertRanked {x a : SearchResult} :
    ∀ {l : List SearchResult}, x ∈ insertRanked a l ↔ x = a ∨ x ∈ l := by
  intro l
  induction l with
  | nil => simp [insertRanked]
  | cons b t ih =>
    by_cases h : rankGe a b = true
    · simp [insertRanked, h]
    · simp only [insertRanked, h, if_false, Bool.false_eq_true, List.mem_cons, ih]
      tauto

theorem pairwise_insertRanked {a : SearchResult} :
    ∀ {l : List SearchResult},
      l.Pairwise (fun x y => rankGe x y = true) →
      (insertRanked a l).Pairwise (fun x y => rankGe x y = true) := by
  intro l
  induction l with
  | nil =>
    intro _
    simp [insertRanked]
  | cons b t ih =>
    intro hp
    rcases List.pairwise_cons.mp hp with ⟨hbt, hpt⟩
    by_cases h : rankGe a b = true
    · rw [show insertRanked a (b :: t) = a :: b :: t from if_pos h]
      refine List.Pairwise.cons ?_ hp
      intro x hx
      rcases List.mem_cons.mp hx with rfl | hxt
      · exact h
      · exact rankGe_trans h (hbt x hxt)
    · have htot := (rankGe_total a b).resolve_left h
      rw [show insertRanked a (b :: t) = b :: insertRanked a t from if_neg h]
      refine List.Pairwise.cons ?_ (ih hpt)
      intro x hx
      rcases mem_insertRanked.mp hx with rfl | hxt
      · exact htot
      · exact hbt x hxt

theorem sortByRank_pairwise :
    ∀ l : List SearchResult,
      (sortByRank l).Pairwise (fun x y => rankGe x y = true) := by
  intro l
  induction l with
  | nil => simp [sortByRank]
  | cons a t ih => exact pairwise_insertRanked ih

theorem insertRanked_perm (a : SearchResult) :
    ∀ l : List SearchResult, (insertRanked a l).Perm (a :: l) := by
  intro l
  induction l with
  | nil => exact List.Perm.refl _
  | cons b t ih =>
    by_cases h : rankGe a b = true
    · rw [show insertRanked a (b :: t) = a :: b :: t from if_pos h]
    · rw [show insertRanked a (b :: t) = b :: insertRanked a t from if_neg h]
      exact (ih.cons b).trans (List.Perm.swap a b t)

theorem sortByRank_perm : ∀ l : List SearchResult, (sortByRank l).Perm l := by
  intro l
  induction l with
  | nil => exact List.Perm.refl _
  | cons a t ih => exact (insertRanked_perm a (sortByRank t)).trans (ih.cons a)

theorem dedupAux_find? {u : String} (hu : u ≠ "") :
    ∀ (l : List SearchResult) (seen : List String), u ∉ seen →
      (dedupAux seen l).find? (fun r => r.url == u) =
        l.find? (fun r => r.url == u) := by
  intro l
  induction l with
  | nil =>
    intro seen _
    rfl
  | cons r rest ih =>
    intro seen hseen
    by_cases hskip : (r.url.isEmpty || seen.contains r.url) = true
    · have hru : ¬(r.url == u) = true := by
        intro hbe
        have hrequ : r.url = u := beq_iff_eq.mp hbe
        have hor : r.url.isEmpty = true ∨ seen.contains r.url = true := by
          simpa using hskip
        rcases hor with hemp | hcont
        · have h0 : r.url = "" := (String.isEmpty_iff r.url).mp hemp
          exact hu (by rw [← hrequ, h0])
        · have h0 : r.url ∈ seen := List.elem_iff.mp hcont
          exact hseen (hrequ ▸ h0)
      rw [show dedupAux seen (r :: rest) = dedupAux seen rest from if_pos hskip]
      rw [@List.find?_cons_of_neg _ (fun x => x.url == u) r rest hru]
      exact ih seen hseen
    · rw [show dedupAux seen (r :: rest) = r :: dedupAux (r.url :: seen) rest
        from if_neg hskip]
      by_cases hru : (r.url == u) = true
      · rw [@List.find?_cons_of_pos _ (fun x => x.url == u) r
            (dedupAux (r.url :: seen) rest) hru,
          @List.find?_cons_of_pos _ (fun x => x.url == u) r rest hru]
      · rw [@List.find?_cons_of_neg _ (fun x => x.url == u) r
            (dedupAux (r.url :: seen) rest) hru,
          @List.find?_cons_of_neg _ (fun x => x.url == u) r rest hru]
        apply ih
        intro hm
        rcases List.mem_cons.mp hm with h0 | h0
        · exact hru (beq_iff_eq.mpr h0.symm)
        · exact hseen h0

/-- Claim C7: the web-search provider deduplicates by URL keeping the
first occurrence (the first record found for any non-empty URL is
unchanged by the dedup pass), then stably sorts the survivors descending
by the composite key (domain weight, core-term presence, negated
negative-context penalty); in the sorted list a candidate with positive
preferred-domain weight comes strictly before one with weight 0, also at
equal core-term presence. -/
theorem search_ranking_correct :
    ∀ raw : List SearchResult,
      (∀ u : String, u ≠ "" →
        (dedupByUrl raw).find? (fun r => r.url == u) =
          raw.find? (fun r => r.url == u))
      ∧ (rankedResults raw).Perm (dedupByUrl raw)
      ∧ (rankedResults raw).Pairwise
          (fun a b => lexLe3 (rank b) (rank a) = true)
      ∧ (∀ i j : Fin (rankedResults raw).length,
          coreBonus ((rankedResults raw).get i) =
            coreBonus ((rankedResults raw).get j) →
          0 < domain_weight ((rankedResults raw).get i).url →
          domain_weight ((rankedResults raw).get j).url = 0 →
          (i : Nat) < (j : Nat)) := by
  intro raw
  refine ⟨fun u hu => dedupAux_find? hu raw [] (by simp),
    sortByRank_perm _, sortByRank_pairwise _, ?_⟩
  intro i j _ hi hj
  rcases lt_trichotomy (i : Nat) (j : Nat) with h | h | h
  · exact h
  · exfalso
    have hij : i = j := Fin.ext h
    rw [hij, hj] at hi
    exact lt_irrefl _ hi
  · exfalso
    have hp := List.pairwise_iff_get.mp
      (show (rankedResults raw).Pairwise (fun x y => rankGe x y = true) from
        sortByRank_pairwise (dedupByUrl raw)) j i h
    simp only [rankGe, rank, lexLe3, Bool.or_eq_true, Bool.and_eq_true,
      decide_eq_true_eq] at hp
    rcases hp with hlt | ⟨heq, _⟩
    · rw [hj] at hlt
      exact absurd (lt_trans hi hlt) (lt_irrefl _)
    · rw [hj] at heq
      rw [heq] at hi
      exact lt_irrefl _ hi

/-- Witness for C7: first-occurrence dedup at a concrete URL. -/
theorem search_ranking_witness :
    (dedupByUrl [samplePlain, samplePreferred]).find?
        (fun r => r.url == "https://example.com/a") =
      [samplePlain, samplePreferred].find?
        (fun r => r.url == "https://example.com/a") :=
  (search_ranking_correct [samplePlain, samplePreferred]).1
    "https://example.com/a" (by decide)

/-- Claim C8: the web provider attempts only the top `max_pages` ranked
candidates: it emits at most `max_pages` records, every record comes from
a successfully fetched core-hit candidate inside that prefix, and the
output depends only on that prefix — skipped candidates consume the
budget and are never backfilled from lower-ranked results. -/
theorem web_fetch_budget :
    ∀ (ct : String → String) (f : String → Option String)
      (raw : List SearchResult) (n : Nat),
      (search_and_fetch_evidence ct f raw n).length ≤ n
      ∧ (∀ e ∈ search_and_fetch_evidence ct f raw n,
          ∃ r ∈ (rankedResults raw).take n,
            f r.url ≠ none ∧ e.core_hits ≠ [] ∧
              webEvidenceFor ct f r = some e)
      ∧ (∀ raw2 : List SearchResult,
          (rankedResults raw).take n = (rankedResults raw2).take n →
          search_and_fetch_evidence ct f raw n =
            search_and_fetch_evidence ct f raw2 n) := by
  intro ct f raw n
  refine ⟨?_, ?_, ?_⟩
  · calc (search_and_fetch_evidence ct f raw n).length
        ≤ ((rankedResults raw).take n).length :=
          List.length_filterMap_le _ _
    _ ≤ n := by
          rw [List.length_take]
          exact min_le_left _ _
  · intro e he
    rcases List.mem_filterMap.mp he with ⟨r, hr, hsome⟩
    have hinv := webEvidenceFor_some hsome
    exact ⟨r, hr, hinv.2.2.1, hinv.1, hsome⟩
  · intro raw2 hpre
    unfold search_and_fetch_evidence
    rw [hpre]

/-- Witness for C8: the budget bounds the output, and two raw lists with
the same top-1 ranked prefix produce the same evidence. -/
theorem web_fetch_budget_witness :
    (search_and_fetch_evidence (fun s => s) (fun _ => some samplePage)
        [samplePreferred] 1).length ≤ 1
    ∧ search_and_fetch_evidence (fun s => s) (fun _ => some samplePage)
        [samplePreferred] 1 =
      search_and_fetch_evidence (fun s => s) (fun _ => some samplePage)
        [samplePreferred, samplePreferred] 1 :=
  ⟨(web_fetch_budget (fun s => s) (fun _ => some samplePage)
      [samplePreferred] 1).1,
   (web_fetch_budget (fun s => s) (fun _ => some samplePage)
      [samplePreferred] 1).2.2 [samplePreferred, samplePreferred] (by decide)⟩

theorem wikipediaLoop_all_fail (lookup : String → Option SummaryResult) :
    ∀ cands : List String,
      (∀ cand ∈ cands, ∀ res, lookup cand = some res →
        stripStr res.extract = "") →
      wikipediaLoop lookup cands = emptyEvidence "wikipedia" "" false := by
  intro cands
  induction cands with
  | nil =>
    intro _
    rfl
  | cons c rest ih =>
    intro hall
    rcases hc : lookup c with _ | res
    · rw [show wikipediaLoop lookup (c :: rest) = wikipediaLoop lookup rest from by
        simp only [wikipediaLoop, hc]]
      exact ih (fun cand hm => hall cand (List.mem_cons_of_mem _ hm))
    · have hstr : stripStr res.extract = "" :=
        hall c (List.mem_cons_self _ _) res hc
      have hemp : (stripStr res.extract).isEmpty = true := by
        rw [hstr]
        decide
      rw [show wikipediaLoop lookup (c :: rest) = wikipediaLoop lookup rest from by
        simp only [wikipediaLoop, hc]
        exact if_pos hemp]
      exact ih (fun cand hm => hall cand (List.mem_cons_of_mem _ hm))

theorem webEvidenceFor_none {ct : String → String} {f : String → Option String}
    {r : SearchResult} (h : f r.url = none ∨ f r.url = some "") :
    webEvidenceFor ct f r = none := by
  rcases h with h | h
  · simp only [webEvidenceFor, h]
  · simp only [webEvidenceFor, h]
    exact if_pos (by decide)

/-- Claim C9: every provider degrades network and parse failures locally:
a failed (or empty-body) parental-guide fetch still yields a record, with
availability false and all hit and severity fields empty or zero; failed
or empty summary candidates yield the unavailable encyclopedia record;
failed or empty-body web-page fetches produce no web records; so the
report builder never sees a provider error. -/
theorem provider_failure_degrades :
    (∀ (ct : String → String) (imdb_id : String),
      imdb_parental_guide_evidence ct imdb_id none =
        emptyEvidence "imdb_parentalguide" (imdbGuideUrl imdb_id) false
      ∧ imdb_parental_guide_evidence ct imdb_id (some "") =
        emptyEvidence "imdb_parentalguide" (imdbGuideUrl imdb_id) false)
    ∧ (∀ (lookup : String → Option SummaryResult) (t y : String),
        (∀ cand ∈ wikiCandidates t y, ∀ res, lookup cand = some res →
          stripStr res.extract = "") →
        wikipedia_evidence lookup t y = emptyEvidence "wikipedia" "" false)
    ∧ (∀ (ct : String → String) (f : String → Option String)
        (raw : List SearchResult) (n : Nat),
        (∀ r ∈ (rankedResults raw).take n,
          f r.url = none ∨ f r.url = some "") →
        search_and_fetch_evidence ct f raw n = []) := by
  refine ⟨?_, ?_, ?_⟩
  · intro ct imdb_id
    constructor
    · rfl
    · simp only [imdb_parental_guide_evidence]
      exact if_pos (by decide)
  · intro lookup t y h
    exact wikipediaLoop_all_fail lookup (wikiCandidates t y) h
  · intro ct f raw n h
    unfold search_and_fetch_evidence
    rw [List.filterMap_eq_nil_iff]
    intro r hr
    exact webEvidenceFor_none (h r hr)

/-- Witness for C9: every summary candidate failing yields the
unavailable encyclopedia record. -/
theorem provider_failure_witness :
    wikipedia_evidence (fun _ => none) "Arachnophobia" "1990" =
      emptyEvidence "wikipedia" "" false :=
  provider_failure_degrades.2.1 (fun _ => none) "Arachnophobia" "1990"
    (fun _ _ _ h => Option.noConfusion h)

end SpiderStamp
